import Mathlib

/-
Verification development for the PMF Studio scoring core
(`pmf_score_engine.py` and the scoring/quality/display parts of `app.py`).

Shallow embedding conventions:
* Python floats are modelled as `ℚ` (exact rational arithmetic).
* A JSON-ish survey value is a `JVal` (null / string / number / list);
  a raw survey input is a total map `String → JVal`, with `JVal.null`
  standing for an absent field.
* Python exceptions are modelled with `Except String`: `int(...)` /
  `float(...)` conversions that can raise return `Except`/`Option`
  results, and a function that can raise returns `Except String _`.
* `round` on `ℚ` (round half up) models Python `round` (which is
  banker's rounding at exact halves; no claim below depends on an
  exact-half tie).
-/

namespace PmfStudio

/-- A dynamically-typed survey value: Python `None`, `str`, numeric, or `list`. -/
inductive JVal where
  | null
  | str (s : String)
  | num (q : ℚ)
  | arr (l : List JVal)

/-- The Python test `x is None`. -/
def JVal.isNull : JVal → Bool
  | .null => true
  | _ => false

/-- A raw survey input: field name to value, `JVal.null` for missing fields. -/
abbrev Raw := String → JVal

/-- Python truthiness of a value (`bool(x)`). -/
def JVal.truthy : JVal → Bool
  | .null => false
  | .str s => !s.isEmpty
  | .num q => decide (q ≠ 0)
  | .arr l => !l.isEmpty

/-- The Python idiom `x or d`: `d` when `x` is falsy, else `x`. -/
def JVal.orDefault (v d : JVal) : JVal := if v.truthy then v else d

/-- Equality on modelled exception results is decidable. -/
instance {ε α : Type} [DecidableEq ε] [DecidableEq α] : DecidableEq (Except ε α)
  | .ok x, .ok y =>
    if h : x = y then .isTrue (congrArg Except.ok h)
    else .isFalse (fun hh => h (Except.ok.inj hh))
  | .ok _, .error _ => .isFalse (fun hh => Except.noConfusion hh)
  | .error _, .ok _ => .isFalse (fun hh => Except.noConfusion hh)
  | .error e, .error f =>
    if h : e = f then .isTrue (congrArg Except.error h)
    else .isFalse (fun hh => h (Except.error.inj hh))

/-- Python default strip whitespace (ASCII part; exotic Unicode spaces are
not used by any input considered here). -/
def pySpace (c : Char) : Bool :=
  c = ' ' || c = '\t' || c = '\n' || c = '\r' || c = '\x0b' || c = '\x0c'

/-- Python `str.strip()`: drop leading and trailing whitespace. -/
def pyTrim (s : String) : String :=
  ⟨((s.data.dropWhile pySpace).reverse.dropWhile pySpace).reverse⟩

/-- Digits to the natural number they denote (most significant first). -/
def natOfDigits (l : List Char) : Nat :=
  l.foldl (fun a c => a * 10 + (c.toNat - 48)) 0

/-- Python `int(s)` on a string: optional surrounding whitespace, optional
sign, one or more decimal digits; anything else raises (`none`). -/
def parseIntStr (s : String) : Option Int :=
  let core : List Char → Option Int := fun body =>
    if body ≠ [] ∧ body.all Char.isDigit then some ((natOfDigits body : Int)) else none
  match (pyTrim s).data with
  | '+' :: r => core r
  | '-' :: r => (core r).map Neg.neg
  | r => core r

/-- Python `float(s)` on a string: optional whitespace and sign, then a
decimal literal `d+`, `d+.d*` or `.d+` (exponents/inf/nan not modelled;
no input below uses them). Anything else raises (`none`). -/
def parseDecStr (s : String) : Option ℚ :=
  let core : List Char → Option ℚ := fun body =>
    let ip := body.takeWhile (fun c => c ≠ '.')
    let rest := body.dropWhile (fun c => c ≠ '.')
    match rest with
    | [] => if ip ≠ [] ∧ ip.all Char.isDigit then some ((natOfDigits ip : ℚ)) else none
    | _ :: frac =>
      if (ip ≠ [] ∨ frac ≠ []) ∧ ip.all Char.isDigit ∧ frac.all Char.isDigit then
        some ((natOfDigits ip : ℚ) + (natOfDigits frac : ℚ) / (10 ^ frac.length))
      else none
  match (pyTrim s).data with
  | '+' :: r => core r
  | '-' :: r => (core r).map Neg.neg
  | r => core r

/-- Truncation of a rational toward zero, as Python `int(float)`. -/
def ratTrunc (q : ℚ) : Int := if 0 ≤ q then ⌊q⌋ else ⌈q⌉

/-- Python `int(x)` on a survey value: parses strings, truncates numbers,
raises (`Except.error`) on `None` and lists. -/
def pyInt : JVal → Except String Int
  | .null => .error ("TypeError")
  | .str s =>
    match parseIntStr s with
    | some n => .ok n
    | none => .error ("ValueError")
  | .num q => .ok (ratTrunc q)
  | .arr _ => .error ("TypeError")

/-- Python `float(x)` on a survey value: parses strings, keeps numbers,
raises on `None` and lists. -/
def pyFloat : JVal → Except String ℚ
  | .null => .error ("TypeError")
  | .str s =>
    match parseDecStr s with
    | some q => .ok q
    | none => .error ("ValueError")
  | .num q => .ok q
  | .arr _ => .error ("TypeError")

/-- The idiom `int(raw.get(k) or 0)` from `build_scores_from_raw`. -/
def getInt0 (raw : Raw) (k : String) : Except String Int :=
  pyInt ((raw k).orDefault (.num 0))

/-- The idiom `(raw.get(k) or "").strip()`: empty string for falsy values,
`AttributeError` for truthy non-strings (they have no `.strip`). -/
def pyStrip (v : JVal) : Except String String :=
  match v.orDefault (.str "") with
  | .str s => .ok (pyTrim s)
  | _ => .error ("AttributeError")

/-- `DEFAULT_WEIGHTS` from `pmf_score_engine.py` lines 2-8. -/
def DEFAULT_WEIGHTS : List (String × ℚ) :=
  [("problem_score", 1/5), ("persona_score", 1/10), ("solution_score", 1/4),
   ("market_score", 1/4), ("retention_score", 1/5)]

/-- `sum(w.values())`. -/
def weightsSum (w : List (String × ℚ)) : ℚ := (w.map Prod.snd).sum

/-- `load_weights` (`pmf_score_engine.py` lines 10-21). The file system is
abstracted: `none` is an absent or unreadable/unparsable file, `some w`
a successfully parsed weight table. -/
def load_weights (file : Option (List (String × ℚ))) : List (String × ℚ) :=
  match file with
  | none => DEFAULT_WEIGHTS
  | some w =>
    if weightsSum w ≤ 0 then DEFAULT_WEIGHTS
    else w.map (fun kv => (kv.1, kv.2 / weightsSum w))

/-- `map_sean_ellis_to_score` (`pmf_score_engine.py` lines 23-35), after the
`float` conversion has succeeded (the `None` guard is at the call site). -/
def map_sean_ellis_to_score (x : ℚ) : ℚ :=
  if x ≤ 0 then 0
  else if 100 ≤ x then 100
  else if x < 20 then x * (6/5)
  else if x < 40 then 24 + (x - 20) * (9/5)
  else min 100 (60 + (x - 40) * 1)

/-- `scale_nps_to_0_100` (`pmf_score_engine.py` lines 37-42): the
`try/except` is an `Option`. -/
def scale_nps_to_0_100 (nps : JVal) : Option ℚ :=
  match pyFloat nps with
  | .ok val => some (max 0 (min 100 ((val + 100) / 2)))
  | .error _ => none

/-- The five-key component-score dictionary produced by the scorer. -/
structure Scores where
  problem_score : ℚ
  persona_score : ℚ
  solution_score : ℚ
  market_score : ℚ
  retention_score : ℚ
deriving DecidableEq

/-- `scores.get(key, 0)` on the five-key dictionary. -/
def Scores.toFun (sc : Scores) : String → ℚ := fun k =>
  if k = "problem_score" then sc.problem_score
  else if k = "persona_score" then sc.persona_score
  else if k = "solution_score" then sc.solution_score
  else if k = "market_score" then sc.market_score
  else if k = "retention_score" then sc.retention_score
  else 0

/-- `build_scores_from_raw` (`pmf_score_engine.py` lines 44-110).
`Except.error` marks the paths on which the Python code raises
(`int`/`float` on a non-numeric truthy value, `.strip` on a non-string). -/
def build_scores_from_raw (raw : Raw) : Except String Scores := do
  let problem_text ← pyStrip (raw ("problem"))
  let interviews ← getInt0 raw ("interviews_count")
  let problem_score : ℚ :=
    if problem_text ≠ "" ∧ 8 ≤ interviews then 90
    else if problem_text ≠ "" ∧ 3 ≤ interviews then 70
    else if 8 ≤ interviews then 60
    else 35
  let persona_score : ℚ :=
    match raw ("target") with
    | .arr l => if 2 ≤ l.length then 85 else if l.length = 1 then 65 else 30
    | .str s => if 10 < s.length then 60 else 30
    | _ => 30
  let sean := raw ("very_disappointed_percent")
  let solution_score : ℚ ←
    if !sean.isNull then do
      let x ← pyFloat sean
      pure (map_sean_ellis_to_score x)
    else
      match (if !(raw ("nps")).isNull then scale_nps_to_0_100 (raw ("nps")) else none) with
      | some m => pure m
      | none => do
        let positive_comments ← getInt0 raw ("positive_comments")
        pure (if 5 ≤ positive_comments then 75 else 50)
  let pilots ← getInt0 raw ("pilot_users")
  let paid_customers ← getInt0 raw ("paid_customers")
  let market_score : ℚ :=
    if 20 ≤ paid_customers then 90
    else if 50 ≤ pilots then 85
    else if 10 ≤ pilots ∨ 10 ≤ interviews then 70
    else 40
  let day7 := raw ("day7_retention")
  let dau_mau := raw ("dau_mau")
  let retention_score : ℚ :=
    if !day7.isNull then
      match pyFloat day7 with
      | .ok d7 =>
        let d := if d7 ≤ 1 then d7 * 100 else d7
        max 0 (min 100 d)
      | .error _ => 40
    else if !dau_mau.isNull then
      match pyFloat dau_mau with
      | .ok dm =>
        let d := if dm ≤ 1 then dm * 100 else dm
        max 0 (min 100 (d * (4/5)))
      | .error _ => 40
    else 40
  pure ⟨problem_score, persona_score, solution_score, market_score, retention_score⟩

/-- Python `round(x, 1)`. -/
def round1 (x : ℚ) : ℚ := ((round (x * 10) : ℤ) : ℚ) / 10

/-- The stage labelling of `calculate_pmf_score`
(`pmf_score_engine.py` lines 122-129). -/
def stage_of (s : ℚ) : String :=
  if s ≤ 40 then "Problem Discovery"
  else if s ≤ 60 then "Problem/Solution Fit"
  else if s ≤ 80 then "Product/Market Fit (In Progress)"
  else "PMF Achieved"

/-- `calculate_pmf_score` (`pmf_score_engine.py` lines 112-130): the loaded
weight table is a parameter, the component dictionary is a total map
(`comps.get(key, 0) or 0` on the numeric maps used here is `comps key`,
with absent keys at `0`). -/
def calculate_pmf_score (weights : List (String × ℚ)) (comps : String → ℚ) : ℚ × String :=
  let total := weights.foldl (fun acc kw => acc + kw.2 * (min 100 (max 0 (comps kw.1)))) 0
  let pmf_score := round1 total
  (pmf_score, stage_of pmf_score)

/-- The fixed field list of `assess_data_quality` (`app.py` lines 70-78). -/
def text_keys : List String :=
  ["problem", "problem_intensity", "current_alternatives",
   "willingness_to_pay", "target", "beachhead_customer",
   "customer_access", "solution", "usp", "mvp_status",
   "pricing_model", "repeat_usage", "retention_signal",
   "revenue_status", "key_feedback", "market_size",
   "channels", "pmf_pull_signal", "referral_signal",
   "next_experiments", "biggest_risk", "business_item"]

/-- The placeholder stoplist of `assess_data_quality` (`app.py` line 101). -/
def garbage_stoplist : List String :=
  ["asdf", "qwer", "test", "tt", "11", "1234", "123", "1111"]

/-- Python `str.lower`, character-wise (exact for the ASCII stoplist). -/
def pyLower (s : String) : String := ⟨s.data.map Char.toLower⟩

/-- The garbage test of `assess_data_quality` (`app.py` lines 99-102) on a
stripped non-empty value: very short, or (case-insensitively) a stoplist
placeholder. -/
def is_garbage (v : String) : Bool :=
  v.length ≤ 4 || garbage_stoplist.contains (pyLower v)

/-- The garbage test with the stoplist branch removed: only the length check. -/
def is_garbage_len (v : String) : Bool := v.length ≤ 4

/-- The per-field extraction of `assess_data_quality`: the stripped values
of the fixed text fields, in order. Raises on a truthy non-string field
(as `(raw.get(k) or "").strip()` does). -/
def field_vals (raw : Raw) : Except String (List String) :=
  text_keys.mapM (fun k => pyStrip (raw k))

/-- `nonempty`: fields with some content (`app.py` line 90). -/
def nonempty_count (vs : List String) : Nat :=
  vs.countP (fun v => !v.isEmpty)

/-- `rich`: non-empty fields of length at least 60 (`app.py` lines 93-94). -/
def rich_count (vs : List String) : Nat :=
  vs.countP (fun v => !v.isEmpty && decide (60 ≤ v.length))

/-- `garbage_like` under a given garbage test (`app.py` lines 99-102). -/
def garbage_count (gp : String → Bool) (vs : List String) : Nat :=
  vs.countP (fun v => !v.isEmpty && gp v)

/-- The score/label computation of `assess_data_quality` (`app.py`
lines 104-127), parametrized by the garbage test so that the stoplist-free
variant can be compared: coverage/richness base, garbage penalty applied
when any field is non-empty, `int(round(...))` then clamp, label by the
25/60 cutpoints ("매우 낮음" = very low, "보통" = medium, "높음" = high). -/
def assess_core (gp : String → Bool) (raw : Raw) : Except String (ℤ × String) :=
  match field_vals raw with
  | .error e => .error e
  | .ok vs =>
    if text_keys.length = 0 then .ok (0, "매우 낮음")
    else
      let nonempty := nonempty_count vs
      let rich := rich_count vs
      let garbage_like := garbage_count gp vs
      let coverage : ℚ := (nonempty : ℚ) / (text_keys.length : ℚ)
      let richness : ℚ := (rich : ℚ) / (text_keys.length : ℚ)
      let score0 : ℚ := 100 * ((3/5) * coverage + (2/5) * richness)
      let score1 : ℚ :=
        if 0 < nonempty then
          score0 * (1 - (7/10) * ((garbage_like : ℚ) / ((max nonempty 1 : ℕ) : ℚ)))
        else score0
      let score : ℤ := max 0 (min 100 (round score1))
      let label := if score < 25 then "매우 낮음" else if score < 60 then "보통" else "높음"
      .ok (score, label)

/-- `assess_data_quality` (`app.py` lines 60-127). -/
def assess_data_quality (raw : Raw) : Except String (ℤ × String) :=
  assess_core is_garbage raw

/-- `assess_data_quality` with the stoplist comparison branch removed. -/
def assess_data_quality_nostop (raw : Raw) : Except String (ℤ × String) :=
  assess_core is_garbage_len raw

/-- The quality formula as the spec words it: `base = 100*(0.6*coverage +
0.4*richness)`, `score = base * (1 - 0.7*garbage_ratio)` with
`garbage_ratio = garbage_count / max(nonempty_count, 1)` applied
unconditionally, the result clamped to [0,100] and then rounded, labels by
the same 25/60 cutpoints. -/
def assess_quality_specFormula (raw : Raw) : Except String (ℤ × String) :=
  match field_vals raw with
  | .error e => .error e
  | .ok vs =>
    let nonempty := nonempty_count vs
    let rich := rich_count vs
    let garbage_like := garbage_count is_garbage vs
    let coverage : ℚ := (nonempty : ℚ) / (text_keys.length : ℚ)
    let richness : ℚ := (rich : ℚ) / (text_keys.length : ℚ)
    let base : ℚ := 100 * ((3/5) * coverage + (2/5) * richness)
    let garbage_ratio : ℚ := (garbage_like : ℚ) / ((max nonempty 1 : ℕ) : ℚ)
    let score_q : ℚ := base * (1 - (7/10) * garbage_ratio)
    let score : ℤ := round (max 0 (min 100 score_q))
    let label := if score < 25 then "매우 낮음" else if score < 60 then "보통" else "높음"
    .ok (score, label)

/-- `_adjust_pmf_score` (`app.py` lines 130-157) on an already-numeric raw
score (the `try float` guard cannot fail then); the quality score is
clamped to [0,100] as in line 140. -/
def adjust_pmf_score (raw_score : ℚ) (raw_stage : String) (quality_score : ℤ) :
    ℚ × String :=
  let q := max 0 (min 100 quality_score)
  if q < 20 then (5, "정보 부족 / 진단 불가 (Pre-PMF)")
  else if q < 40 then (min raw_score 20, "정보 부족 / Early Problem Fit")
  else if q < 60 then (min raw_score 35, "초기 탐색 / Problem Discovery")
  else (raw_score, raw_stage)

/-- The score/stage/mode fields of the dictionary built by
`_build_pmf_pdf_data` (`app.py` lines 367-399 and 427-499). -/
structure PdfScoreData where
  pmf_score : Option ℚ
  validation_stage : String
  pmf_score_raw : ℚ
  validation_stage_raw : String
  data_quality_score : ℤ
  data_quality_label : String
  pmf_score_mode : String
deriving DecidableEq

/-- Displayed score selection of `_build_pmf_pdf_data` (`app.py` lines
372-382): `round(float(score), 1)`, hidden entirely below quality 25. -/
def displayedOf (q : ℤ) (score : ℚ) : Option ℚ :=
  if q < 25 then none else some (round1 score)

/-- Mode selection of `_build_pmf_pdf_data` (`app.py` lines 378-398). -/
def modeOf (q : ℤ) : String :=
  if q < 25 then "invalid" else if q < 60 then "reference" else "normal"

/-- Stage override of `_build_pmf_pdf_data` (`app.py` line 383): only the
invalid mode replaces the stage string. -/
def stageDisplayOf (q : ℤ) (stage : String) : String :=
  if q < 25 then "데이터 부족(판정 불가)" else stage

/-- The scoring part of `_build_pmf_pdf_data` (`app.py` lines 334-399):
component scoring, composite scoring with the loaded weight table,
rule-based quality assessment, then display mode / displayed score /
stage override. Errors are the exceptions the Python code would raise. -/
def build_pmf_pdf_data (wfile : Option (List (String × ℚ))) (raw : Raw) :
    Except String PdfScoreData :=
  match build_scores_from_raw raw with
  | .error e => .error e
  | .ok comps =>
    match assess_data_quality raw with
    | .error e => .error e
    | .ok ql =>
      let p := calculate_pmf_score (load_weights wfile) comps.toFun
      .ok ⟨displayedOf ql.1 p.1, stageDisplayOf ql.1 p.2, p.1, p.2,
           ql.1, ql.2, modeOf ql.1⟩

/-- Order on displayed scores with a suppressed score counted lowest. -/
def optLe : Option ℚ → Option ℚ → Prop
  | none, _ => True
  | some _, none => False
  | some a, some b => a ≤ b

/-- The displayed-score ceiling the spec's adjuster table (§4.4) assigns to
a quality score: suppression below 20, a 20-point cap below 40, a 35-point
cap below 60, no cap from 60 up. -/
def specCeiling (q : ℤ) : ℚ :=
  if q < 40 then 20 else if q < 60 then 35 else 100

/-- The display policy claimed for the adjuster: suppression below quality
20, `min(s, 20)` below 40, `min(s, 35)` below 60, the raw score from 60. -/
def specDisplayPolicy (s : ℚ) (q : ℤ) : Option ℚ :=
  if q < 20 then none
  else if q < 40 then some (min s 20)
  else if q < 60 then some (min s 35)
  else some s

/-- The all-fields-empty survey input. -/
def rawEmpty : Raw := fun _ => .null

/-- A survey input whose `interviews_count` is the non-numeric string
"abc" and whose other fields are absent. -/
def rawC2 : Raw := fun k => if k = "interviews_count" then .str "abc" else .null

/-- A 60-character filler answer. -/
def longText : String :=
  "abcdefghijabcdefghijabcdefghijabcdefghijabcdefghijabcdefghij"

/-- The nine text fields filled in the mid-quality example input. -/
def c1Keys : List String :=
  ["problem", "current_alternatives", "willingness_to_pay", "target",
   "solution", "usp", "key_feedback", "market_size", "channels"]

/-- A survey input with nine substantial text answers and nothing else:
its data-quality score is 41 (reference mode) and its composite score
43.5. -/
def rawC1 : Raw := fun k => if c1Keys.contains k then .str longText else .null

/-- Nine text fields that influence the quality score but not the
component scores. -/
def c1bKeys : List String :=
  ["problem_intensity", "current_alternatives", "willingness_to_pay",
   "beachhead_customer", "customer_access", "solution", "usp",
   "mvp_status", "pricing_model"]

/-- A survey input with the same component scores as the empty input but
data-quality score 41. -/
def rawC1b : Raw := fun k => if c1bKeys.contains k then .str longText else .null

/-- A weight-file content with a negative entry but positive total. -/
def c9File : List (String × ℚ) := [("problem_score", -1), ("persona_score", 3)]

/-- A component map with full persona evidence and no problem evidence. -/
def c9Comps : String → ℚ := fun k => if k = "persona_score" then 100 else 0

/-- Rounding on ℚ is monotone. -/
theorem round_mono_rat {x y : ℚ} (h : x ≤ y) : round x ≤ round y := by
  rw [round_eq, round_eq]
  exact Int.floor_le_floor (by linarith)

/-- `round(-, 1)` is monotone. -/
theorem round1_mono {x y : ℚ} (h : x ≤ y) : round1 x ≤ round1 y := by
  unfold round1
  have h1 : round (x * 10) ≤ round (y * 10) :=
    round_mono_rat (mul_le_mul_of_nonneg_right h (by norm_num))
  have h2 : ((round (x * 10) : ℤ) : ℚ) ≤ ((round (y * 10) : ℤ) : ℚ) := by exact_mod_cast h1
  linarith

/-- Rounding commutes with clamping to [0, 100]. -/
theorem round_clamp (x : ℚ) : round (max 0 (min 100 x)) = max 0 (min 100 (round x)) := by
  have h100 : round ((100 : ℚ)) = 100 := by
    rw [round_eq]; norm_num [Int.floor_eq_iff]
  have h0 : round ((0 : ℚ)) = 0 := round_zero
  rcases le_total x 0 with hx | hx
  · rw [min_eq_right (le_trans hx (by norm_num)), max_eq_left hx, h0]
    have hrx : round x ≤ 0 := h0 ▸ round_mono_rat hx
    rw [min_eq_right (le_trans hrx (by norm_num)), max_eq_left hrx]
  · rcases le_total x 100 with hx2 | hx2
    · rw [min_eq_right hx2, max_eq_right hx]
      have ha : 0 ≤ round x := h0 ▸ round_mono_rat hx
      have hb : round x ≤ 100 := h100 ▸ round_mono_rat hx2
      rw [min_eq_right hb, max_eq_right ha]
    · rw [min_eq_left hx2, max_eq_right (by norm_num : (0 : ℚ) ≤ 100), h100]
      have hb : 100 ≤ round x := h100 ▸ round_mono_rat hx2
      rw [min_eq_left hb, max_eq_right (by norm_num : (0 : ℤ) ≤ 100)]

/-- Garbage fields are a subset of the non-empty fields. -/
theorem garbage_le_nonempty (gp : String → Bool) (vs : List String) :
    garbage_count gp vs ≤ nonempty_count vs := by
  unfold garbage_count nonempty_count
  apply List.countP_mono_left
  intro v _ h
  exact (Bool.and_eq_true _ _ |>.mp h).1

/-- Rich fields are a subset of the non-empty fields. -/
theorem rich_le_nonempty (vs : List String) : rich_count vs ≤ nonempty_count vs := by
  unfold rich_count nonempty_count
  apply List.countP_mono_left
  intro v _ h
  exact (Bool.and_eq_true _ _ |>.mp h).1

/-- Evaluation: the empty input's component scores. -/
theorem eval_scores_rawEmpty : build_scores_from_raw rawEmpty = .ok ⟨35, 30, 50, 40, 40⟩ := by
  decide

/-- Evaluation: composite score and stage of the empty input's components
under the default weight table. -/
theorem eval_calc_rawEmpty :
    calculate_pmf_score DEFAULT_WEIGHTS (Scores.toFun ⟨35, 30, 50, 40, 40⟩)
      = (81/2, "Problem/Solution Fit") := by
  simp only [calculate_pmf_score, DEFAULT_WEIGHTS, Scores.toFun, List.foldl,
    round1, stage_of, String.reduceEq, reduceIte]
  norm_num [round_eq, Int.floor_eq_iff]

/-- Evaluation: quality assessment of the empty input. -/
theorem eval_assess_rawEmpty : assess_data_quality rawEmpty = .ok (0, "매우 낮음") := by
  have h1 : field_vals rawEmpty = .ok (List.replicate 22 "") := by decide
  have h2 : nonempty_count (List.replicate 22 "") = 0 := by decide
  have h3 : rich_count (List.replicate 22 "") = 0 := by decide
  have h4 : garbage_count is_garbage (List.replicate 22 "") = 0 := by decide
  simp only [assess_data_quality, assess_core, h1, h2, h3, h4]
  norm_num [text_keys, round_eq, Int.floor_eq_iff]

/-- Evaluation: the full pipeline on the empty input. -/
theorem eval_pdf_rawEmpty :
    build_pmf_pdf_data none rawEmpty =
      .ok ⟨none, "데이터 부족(판정 불가)", 81/2, "Problem/Solution Fit", 0, "매우 낮음", "invalid"⟩ := by
  rw [build_pmf_pdf_data, eval_scores_rawEmpty, eval_assess_rawEmpty]
  simp only [load_weights, eval_calc_rawEmpty, displayedOf, modeOf, stageDisplayOf]
  norm_num

/-- Evaluation: the stripped text fields of the mid-quality input. -/
theorem eval_fields_rawC1 :
    field_vals rawC1 =
      .ok (text_keys.map (fun k => if c1Keys.contains k then longText else "")) := by
  decide

/-- Evaluation: quality assessment of the mid-quality input. -/
theorem eval_assess_rawC1 : assess_data_quality rawC1 = .ok (41, "보통") := by
  have h2 : nonempty_count (text_keys.map (fun k => if c1Keys.contains k then longText else "")) = 9 := by decide
  have h3 : rich_count (text_keys.map (fun k => if c1Keys.contains k then longText else "")) = 9 := by decide
  have h4 : garbage_count is_garbage (text_keys.map (fun k => if c1Keys.contains k then longText else "")) = 0 := by decide
  simp only [assess_data_quality, assess_core, eval_fields_rawC1, h2, h3, h4]
  norm_num [text_keys, round_eq, Int.floor_eq_iff]

/-- Evaluation: component scores of the mid-quality input. -/
theorem eval_scores_rawC1 : build_scores_from_raw rawC1 = .ok ⟨35, 60, 50, 40, 40⟩ := by
  decide

/-- Evaluation: the full pipeline on the mid-quality input displays the
uncapped composite score 43.5 in reference mode. -/
theorem eval_pdf_rawC1 :
    build_pmf_pdf_data none rawC1 =
      .ok ⟨some (87/2), "Problem/Solution Fit", 87/2, "Problem/Solution Fit",
           41, "보통", "reference"⟩ := by
  rw [build_pmf_pdf_data, eval_scores_rawC1, eval_assess_rawC1]
  simp only [load_weights, calculate_pmf_score, DEFAULT_WEIGHTS, Scores.toFun, List.foldl,
    round1, stage_of, displayedOf, modeOf, stageDisplayOf, String.reduceEq, reduceIte]
  norm_num [round_eq, Int.floor_eq_iff]

/-- C2: the spec promises that non-numeric strings in numeric-expected
fields make the scorer fall back to the weakest-evidence branch and never
raise; the code instead raises `ValueError` from `int("abc")` when
`interviews_count` holds a non-numeric string, so the exception escapes
`build_scores_from_raw`. -/
theorem claim2_nonnumeric_interviews_raises :
    build_scores_from_raw rawC2 = .error ("ValueError") := by
  decide

/-- C4 counterexample: on the all-empty input the component scores are
exactly {35, 30, 50, 40, 40}, but the composite under the default weight
table is 40.5 — not approximately 38.25 — and the raw stage is
"Problem/Solution Fit", not "Problem Discovery". -/
theorem claim4_counterexample :
    build_scores_from_raw rawEmpty = .ok ⟨35, 30, 50, 40, 40⟩ ∧
    calculate_pmf_score DEFAULT_WEIGHTS (Scores.toFun ⟨35, 30, 50, 40, 40⟩)
      = (81/2, "Problem/Solution Fit") ∧
    ((81 : ℚ)/2) ≠ 153/4 ∧
    "Problem/Solution Fit" ≠ "Problem Discovery" := by
  refine ⟨eval_scores_rawEmpty, eval_calc_rawEmpty, by norm_num, by decide⟩

/-- C4 (amended): all fields empty gives component scores
{35, 30, 50, 40, 40}, composite 40.5 with raw stage "Problem/Solution
Fit", quality score 0 with label "매우 낮음" (very low), display mode
"invalid", displayed score null, and displayed stage "데이터 부족(판정 불가)". -/
theorem claim4_empty_input :
    build_scores_from_raw rawEmpty = .ok ⟨35, 30, 50, 40, 40⟩ ∧
    calculate_pmf_score DEFAULT_WEIGHTS (Scores.toFun ⟨35, 30, 50, 40, 40⟩)
      = (81/2, "Problem/Solution Fit") ∧
    assess_data_quality rawEmpty = .ok (0, "매우 낮음") ∧
    build_pmf_pdf_data none rawEmpty =
      .ok ⟨none, "데이터 부족(판정 불가)", 81/2, "Problem/Solution Fit", 0, "매우 낮음", "invalid"⟩ :=
  ⟨eval_scores_rawEmpty, eval_calc_rawEmpty, eval_assess_rawEmpty, eval_pdf_rawEmpty⟩

/-- C5: the stage is a pure function of the rounded composite score, with
inclusive upper bounds: ≤ 40 is "Problem Discovery", (40, 60] is
"Problem/Solution Fit", (60, 80] is "Product/Market Fit (In Progress)",
above 80 is "PMF Achieved"; in particular 40.0 and 40.01 fall on the two
sides of the first boundary. -/
theorem claim5_stage_thresholds :
    (∀ (w : List (String × ℚ)) (comps : String → ℚ),
      (calculate_pmf_score w comps).2 = stage_of (calculate_pmf_score w comps).1) ∧
    (∀ s : ℚ, s ≤ 40 → stage_of s = "Problem Discovery") ∧
    (∀ s : ℚ, 40 < s → s ≤ 60 → stage_of s = "Problem/Solution Fit") ∧
    (∀ s : ℚ, 60 < s → s ≤ 80 → stage_of s = "Product/Market Fit (In Progress)") ∧
    (∀ s : ℚ, 80 < s → stage_of s = "PMF Achieved") ∧
    stage_of 40 = "Problem Discovery" ∧
    stage_of (4001/100) = "Problem/Solution Fit" := by
  refine ⟨fun w comps => rfl, fun s h => by simp [stage_of, h],
    fun s h1 h2 => ?_, fun s h1 h2 => ?_, fun s h1 => ?_, ?_, ?_⟩
  · simp only [stage_of]
    rw [if_neg (by linarith), if_pos h2]
  · simp only [stage_of]
    rw [if_neg (by linarith), if_neg (by linarith), if_pos h2]
  · simp only [stage_of]
    rw [if_neg (by linarith), if_neg (by linarith), if_neg (by linarith)]
  · simp only [stage_of]
    rw [if_pos (by norm_num)]
  · simp only [stage_of]
    rw [if_neg (by norm_num), if_pos (by norm_num)]

/-- C5 witness: the threshold characterization applied at the boundary
scores 40.0, 40.01, 75 and 95. -/
theorem claim5_stage_thresholds_witness :
    stage_of 40 = "Problem Discovery" ∧
    stage_of (4001/100) = "Problem/Solution Fit" ∧
    stage_of 75 = "Product/Market Fit (In Progress)" ∧
    stage_of 95 = "PMF Achieved" :=
  ⟨claim5_stage_thresholds.2.1 40 (by norm_num),
   claim5_stage_thresholds.2.2.1 (4001/100) (by norm_num) (by norm_num),
   claim5_stage_thresholds.2.2.2.1 75 (by norm_num) (by norm_num),
   claim5_stage_thresholds.2.2.2.2.1 95 (by norm_num)⟩

/-- C6: the Sean Ellis mapping is the claimed piecewise-linear curve —
0 for x ≤ 0, slope 1.2 on [0, 20), value 24 at 20 with slope 1.8 on
[20, 40), value 60 at 40 with slope 1.0 on [40, 100] clamped at 100,
and 100 for x ≥ 100 — and its output always lies in [0, 100]. -/
theorem claim6_sean_ellis_curve :
    (∀ x : ℚ, x ≤ 0 → map_sean_ellis_to_score x = 0) ∧
    (∀ x : ℚ, 0 ≤ x → x < 20 → map_sean_ellis_to_score x = x * (6/5)) ∧
    (∀ x : ℚ, 20 ≤ x → x < 40 → map_sean_ellis_to_score x = 24 + (x - 20) * (9/5)) ∧
    map_sean_ellis_to_score 20 = 24 ∧
    (∀ x : ℚ, 40 ≤ x → x ≤ 100 → map_sean_ellis_to_score x = min 100 (60 + (x - 40))) ∧
    (∀ x : ℚ, 100 ≤ x → map_sean_ellis_to_score x = 100) ∧
    map_sean_ellis_to_score 40 = 60 ∧
    (∀ x : ℚ, 0 ≤ map_sean_ellis_to_score x ∧ map_sean_ellis_to_score x ≤ 100) := by
  have hbase : ∀ x : ℚ, x ≤ 0 → map_sean_ellis_to_score x = 0 := by
    intro x h
    simp only [map_sean_ellis_to_score]
    rw [if_pos h]
  have hseg1 : ∀ x : ℚ, 0 ≤ x → x < 20 → map_sean_ellis_to_score x = x * (6/5) := by
    intro x h0 h20
    simp only [map_sean_ellis_to_score]
    rcases eq_or_lt_of_le h0 with h | h
    · rw [if_pos (le_of_eq h.symm), ← h]; ring
    · rw [if_neg (by linarith), if_neg (by linarith), if_pos h20]
  have hseg2 : ∀ x : ℚ, 20 ≤ x → x < 40 → map_sean_ellis_to_score x = 24 + (x - 20) * (9/5) := by
    intro x h20 h40
    simp only [map_sean_ellis_to_score]
    rw [if_neg (by linarith), if_neg (by linarith), if_neg (by linarith), if_pos h40]
  have hseg3 : ∀ x : ℚ, 40 ≤ x → x ≤ 100 → map_sean_ellis_to_score x = min 100 (60 + (x - 40)) := by
    intro x h40 h100
    rcases eq_or_lt_of_le h100 with h | h
    · subst h
      simp only [map_sean_ellis_to_score]
      rw [if_neg (by norm_num), if_pos (le_refl _)]
      norm_num
    · simp only [map_sean_ellis_to_score]
      rw [if_neg (by linarith), if_neg (by linarith), if_neg (by linarith), if_neg (by linarith)]
      ring_nf
  have htop : ∀ x : ℚ, 100 ≤ x → map_sean_ellis_to_score x = 100 := by
    intro x h
    simp only [map_sean_ellis_to_score]
    rcases le_total x 0 with h0 | h0
    · rw [if_pos h0]; linarith
    · rw [if_neg (by linarith), if_pos h]
  have hrange : ∀ x : ℚ, 0 ≤ map_sean_ellis_to_score x ∧ map_sean_ellis_to_score x ≤ 100 := by
    intro x
    rcases le_total x 0 with h | h
    · rw [hbase x h]; norm_num
    · rcases lt_or_le x 20 with h20 | h20
      · rw [hseg1 x h h20]
        constructor <;> nlinarith
      · rcases lt_or_le x 40 with h40 | h40
        · rw [hseg2 x h20 h40]
          constructor <;> nlinarith
        · rcases le_total x 100 with h100 | h100
          · rw [hseg3 x h40 h100]
            exact ⟨le_min (by norm_num) (by linarith), min_le_left _ _⟩
          · rw [htop x h100]; norm_num
  have h20v : map_sean_ellis_to_score 20 = 24 := by
    rw [hseg2 20 (le_refl _) (by norm_num)]; norm_num
  have h40v : map_sean_ellis_to_score 40 = 60 := by
    rw [hseg3 40 (le_refl _) (by norm_num)]; norm_num
  exact ⟨hbase, hseg1, hseg2, h20v, hseg3, htop, h40v, hrange⟩

/-- Summing entry-wise divisions divides the sum. -/
theorem sum_map_div (l : List (String × ℚ)) (t : ℚ) :
    (l.map (fun kv => kv.2 / t)).sum = (l.map Prod.snd).sum / t := by
  induction l with
  | nil => simp
  | cons a tl ih => simp [ih, add_div]

/-- C8: a weight file whose entries sum to a positive total is renormalized
to sum exactly to 1; a missing/unreadable file or a non-positive total
falls back to the default table, whose non-negative weights sum to 1. -/
theorem claim8_weights :
    (∀ w : List (String × ℚ), 0 < weightsSum w → weightsSum (load_weights (some w)) = 1) ∧
    (∀ w : List (String × ℚ), weightsSum w ≤ 0 → load_weights (some w) = DEFAULT_WEIGHTS) ∧
    load_weights none = DEFAULT_WEIGHTS ∧
    weightsSum DEFAULT_WEIGHTS = 1 ∧
    (∀ kv ∈ DEFAULT_WEIGHTS, 0 ≤ kv.2) := by
  refine ⟨?_, ?_, rfl, ?_, ?_⟩
  · intro w hw
    simp only [load_weights]
    rw [if_neg (not_le.mpr hw)]
    show (List.map Prod.snd (List.map (fun kv => (kv.1, kv.2 / weightsSum w)) w)).sum = 1
    rw [List.map_map]
    have hcomp : (Prod.snd ∘ fun kv : String × ℚ => (kv.1, kv.2 / weightsSum w))
        = fun kv : String × ℚ => kv.2 / weightsSum w := rfl
    rw [hcomp, sum_map_div]
    exact div_self (ne_of_gt hw)
  · intro w hw
    simp only [load_weights]
    rw [if_pos hw]
  · norm_num [weightsSum, DEFAULT_WEIGHTS]
  · intro kv h
    fin_cases h <;> norm_num

/-- C8 witness: normalization at a concrete file with total 4, and default
fallback at a concrete file with total -3. -/
theorem claim8_weights_witness :
    weightsSum (load_weights (some [(("problem_score" : String), (2 : ℚ)), ("persona_score", 2)])) = 1 ∧
    load_weights (some [(("problem_score" : String), (-3 : ℚ))]) = DEFAULT_WEIGHTS :=
  ⟨claim8_weights.1 _ (by norm_num [weightsSum]),
   claim8_weights.2.1 _ (by norm_num [weightsSum])⟩

/-- The weighted clamped fold of `calculate_pmf_score` is monotone in the
component map when every weight is non-negative. -/
theorem calc_foldl_mono (f g : String → ℚ) (hfg : ∀ k, f k ≤ g k) :
    ∀ l : List (String × ℚ), (∀ kv ∈ l, 0 ≤ kv.2) →
    ∀ a b : ℚ, a ≤ b →
      l.foldl (fun acc kw => acc + kw.2 * (min 100 (max 0 (f kw.1)))) a ≤
      l.foldl (fun acc kw => acc + kw.2 * (min 100 (max 0 (g kw.1)))) b := by
  intro l
  induction l with
  | nil => intro _ a b h; simpa using h
  | cons kv tl ih =>
    intro hw a b h
    simp only [List.foldl_cons]
    refine ih (fun x hx => hw x (List.mem_cons_of_mem _ hx)) _ _ ?_
    have h1 : min 100 (max 0 (f kv.1)) ≤ min 100 (max 0 (g kv.1)) :=
      min_le_min (le_refl _) (max_le_max (le_refl _) (hfg kv.1))
    have h2 := mul_le_mul_of_nonneg_left h1 (hw kv (List.mem_cons_self _ _))
    linarith

/-- C9 counterexample: with the weight table loaded from a file with a
negative entry but positive total ({problem_score: -1, persona_score: 3},
normalized to {-1/2, 3/2}), raising `problem_score` from 0 to 100 while
holding the other components fixed lowers the composite from 150 to 100. -/
theorem claim9_counterexample :
    (calculate_pmf_score (load_weights (some c9File)) (Function.update c9Comps ("problem_score") 0)).1 = 150 ∧
    (calculate_pmf_score (load_weights (some c9File)) (Function.update c9Comps ("problem_score") 100)).1 = 100 ∧
    ¬ ((150 : ℚ) ≤ 100) := by
  have hw : load_weights (some c9File) = [("problem_score", -1/2), ("persona_score", 3/2)] := by
    simp only [load_weights, c9File, weightsSum, List.map_cons, List.map_nil]
    norm_num
  refine ⟨?_, ?_, by norm_num⟩ <;>
  · rw [hw]
    simp only [calculate_pmf_score, List.foldl, Function.update_apply, c9Comps,
      String.reduceEq, reduceIte, round1]
    norm_num [round_eq, Int.floor_eq_iff, min_def, max_def]

/-- C9 (amended): for every weight table with non-negative weights — which
includes the default table and any table loaded from a file whose entries
are non-negative — the composite score is monotonically non-decreasing in
each component score when the other components are held fixed. -/
theorem claim9_monotone :
    ∀ (weights : List (String × ℚ)) (comps : String → ℚ) (k : String) (v1 v2 : ℚ),
      (∀ kv ∈ weights, 0 ≤ kv.2) → v1 ≤ v2 →
      (calculate_pmf_score weights (Function.update comps k v1)).1 ≤
        (calculate_pmf_score weights (Function.update comps k v2)).1 := by
  intro weights comps k v1 v2 hw h
  unfold calculate_pmf_score
  apply round1_mono
  refine calc_foldl_mono _ _ ?_ weights hw 0 0 (le_refl 0)
  intro k'
  rw [Function.update_apply, Function.update_apply]
  by_cases hk : k' = k
  · rw [if_pos hk, if_pos hk]; exact h
  · rw [if_neg hk, if_neg hk]

/-- C9 witness: monotonicity applied with the default weight table,
raising `problem_score` from 0 to 50 on the all-zero component map. -/
theorem claim9_monotone_witness :
    (calculate_pmf_score DEFAULT_WEIGHTS (Function.update (fun _ => 0) ("problem_score") 0)).1 ≤
      (calculate_pmf_score DEFAULT_WEIGHTS (Function.update (fun _ => 0) ("problem_score") 50)).1 :=
  claim9_monotone DEFAULT_WEIGHTS (fun _ => 0) ("problem_score") 0 50
    (fun kv h => by fin_cases h <;> norm_num) (by norm_num)

/-- Character-wise lowering preserves length. -/
theorem pyLower_length (s : String) : (pyLower s).length = s.length := by
  show (s.data.map Char.toLower).length = s.data.length
  exact List.length_map _ _

/-- C10: every stoplist token has length at most 4, so the stoplist branch
of the garbage test is subsumed by the length check, and removing it
leaves every quality assessment unchanged. -/
theorem claim10_stoplist_unreachable :
    (∀ v ∈ garbage_stoplist, v.length ≤ 4) ∧
    (∀ v : String, is_garbage v = is_garbage_len v) ∧
    (∀ raw : Raw, assess_data_quality raw = assess_data_quality_nostop raw) := by
  have hlen : ∀ v ∈ garbage_stoplist, v.length ≤ 4 := by decide
  have heq : ∀ v : String, is_garbage v = is_garbage_len v := by
    intro v
    unfold is_garbage is_garbage_len
    cases h4 : (decide (v.length ≤ 4)) with
    | true => simp [h4]
    | false =>
      cases hcc : garbage_stoplist.contains (pyLower v) with
      | false => simp [h4, hcc]
      | true =>
        exfalso
        have hmem : pyLower v ∈ garbage_stoplist := by simpa using hcc
        have hlv : (pyLower v).length ≤ 4 := hlen _ hmem
        rw [pyLower_length v] at hlv
        simp [hlv] at h4
  refine ⟨hlen, heq, ?_⟩
  intro raw
  unfold assess_data_quality assess_data_quality_nostop
  rw [funext heq]

/-- C10 witness: the stoplist bound at the token "asdf", the pointwise
garbage-test agreement at a sample answer, and the unchanged assessment
on the mid-quality input. -/
theorem claim10_stoplist_unreachable_witness :
    ("asdf" : String).length ≤ 4 ∧
    is_garbage ("hello there") = is_garbage_len ("hello there") ∧
    assess_data_quality rawC1 = assess_data_quality_nostop rawC1 :=
  ⟨claim10_stoplist_unreachable.1 _ (by decide),
   claim10_stoplist_unreachable.2.1 _,
   claim10_stoplist_unreachable.2.2 rawC1⟩

/-- The guarded garbage penalty of the code equals the spec's unconditional
formula, and clamping before rounding equals rounding before clamping. -/
theorem clamp_round_core (score0 : ℚ) (ne garb : ℕ) (hg : garb ≤ ne) :
    max 0 (min 100 (round (if 0 < ne then
        score0 * (1 - (7/10) * ((garb : ℚ) / ((max ne 1 : ℕ) : ℚ))) else score0)))
    = round (max 0 (min 100
        (score0 * (1 - (7/10) * ((garb : ℚ) / ((max ne 1 : ℕ) : ℚ)))))) := by
  by_cases h : 0 < ne
  · rw [if_pos h, round_clamp]
  · have hne : ne = 0 := by omega
    have hgz : garb = 0 := by omega
    subst hne hgz
    rw [if_neg h, round_clamp]
    norm_num

/-- C7: the quality estimator computes exactly the claimed formula
(coverage/richness base, garbage penalty with `max(nonempty, 1)`, clamp to
[0,100] and round), and its labels follow the <25 / <60 cutpoints with
"매우 낮음" = very_low, "보통" = medium, "높음" = high. -/
theorem claim7_quality_formula :
    (∀ raw : Raw, assess_data_quality raw = assess_quality_specFormula raw) ∧
    (∀ (raw : Raw) (q : ℤ) (l : String), assess_data_quality raw = .ok (q, l) →
      0 ≤ q ∧ q ≤ 100 ∧
      (q < 25 → l = "매우 낮음") ∧ (25 ≤ q → q < 60 → l = "보통") ∧ (60 ≤ q → l = "높음")) := by
  constructor
  · intro raw
    unfold assess_data_quality assess_core assess_quality_specFormula
    cases hfv : field_vals raw with
    | error e => simp [hfv]
    | ok vs =>
      simp only [hfv]
      rw [if_neg (by decide : ¬(text_keys.length = 0))]
      rw [clamp_round_core _ _ _ (garbage_le_nonempty is_garbage vs)]
  · intro raw q l h
    unfold assess_data_quality assess_core at h
    cases hfv : field_vals raw with
    | error e => rw [hfv] at h; exact absurd h (by simp)
    | ok vs =>
      simp only [hfv] at h
      rw [if_neg (by decide : ¬(text_keys.length = 0))] at h
      obtain ⟨hq, hl⟩ := Prod.mk.inj (Except.ok.inj h)
      rw [hq] at hl
      refine ⟨?_, ?_, ?_⟩
      · rw [← hq]; exact le_max_left _ _
      · rw [← hq]; exact max_le (by norm_num) (min_le_left _ _)
      · split_ifs at hl with h1 h2
        · exact ⟨fun _ => hl.symm, fun ha _ => absurd h1 (by omega), fun ha => absurd h1 (by omega)⟩
        · exact ⟨fun ha => absurd ha h1, fun _ _ => hl.symm, fun ha => absurd h2 (by omega)⟩
        · exact ⟨fun ha => absurd ha h1, fun _ hb => absurd hb h2, fun _ => hl.symm⟩

/-- C7 witness: formula agreement and label characterization at the
mid-quality input, whose score 41 is labelled "보통" (medium). -/
theorem claim7_quality_formula_witness :
    assess_data_quality rawC1 = assess_quality_specFormula rawC1 ∧
    (0 ≤ (41 : ℤ) ∧ (41 : ℤ) ≤ 100) ∧ ("보통" : String) = "보통" := by
  have h2 := claim7_quality_formula.2 rawC1 41 ("보통") eval_assess_rawC1
  exact ⟨claim7_quality_formula.1 rawC1, ⟨h2.1, h2.2.1⟩,
    h2.2.2.2.1 (by norm_num) (by norm_num)⟩

/-- Evaluation: component scores of the second mid-quality input match the
empty input's. -/
theorem eval_scores_rawC1b : build_scores_from_raw rawC1b = .ok ⟨35, 30, 50, 40, 40⟩ := by
  decide

/-- Evaluation: quality assessment of the second mid-quality input. -/
theorem eval_assess_rawC1b : assess_data_quality rawC1b = .ok (41, "보통") := by
  have h1 : field_vals rawC1b = .ok (text_keys.map (fun k => if c1bKeys.contains k then longText else "")) := by decide
  have h2 : nonempty_count (text_keys.map (fun k => if c1bKeys.contains k then longText else "")) = 9 := by decide
  have h3 : rich_count (text_keys.map (fun k => if c1bKeys.contains k then longText else "")) = 9 := by decide
  have h4 : garbage_count is_garbage (text_keys.map (fun k => if c1bKeys.contains k then longText else "")) = 0 := by decide
  simp only [assess_data_quality, assess_core, h1, h2, h3, h4]
  norm_num [text_keys, round_eq, Int.floor_eq_iff]

/-- Evaluation: the full pipeline on the second mid-quality input displays
the uncapped composite score 40.5 in reference mode. -/
theorem eval_pdf_rawC1b :
    build_pmf_pdf_data none rawC1b =
      .ok ⟨some (81/2), "Problem/Solution Fit", 81/2, "Problem/Solution Fit",
           41, "보통", "reference"⟩ := by
  rw [build_pmf_pdf_data, eval_scores_rawC1b, eval_assess_rawC1b]
  simp only [load_weights, eval_calc_rawEmpty, displayedOf, modeOf, stageDisplayOf]
  norm_num [round1, round_eq, Int.floor_eq_iff]

/-- C1 counterexample: a concrete input with data-quality score 41 (< 60)
whose displayed score is the uncapped composite 43.5, exceeding the
35-point quality-dependent ceiling the spec's adjuster table assigns to
sub-60 quality — the pipeline never applies the caps. -/
theorem claim1_counterexample :
    build_pmf_pdf_data none rawC1 =
      .ok ⟨some (87/2), "Problem/Solution Fit", 87/2, "Problem/Solution Fit",
           41, "보통", "reference"⟩ ∧
    ((41 : ℤ) < 60) ∧ specCeiling 41 = 35 ∧ ¬ ((87 : ℚ)/2 ≤ 35) :=
  ⟨eval_pdf_rawC1, by norm_num, by norm_num [specCeiling], by norm_num⟩

/-- C1 (amended): for the display pipeline, holding the component scores
fixed, the displayed score is monotonically non-decreasing in the
data-quality score once a suppressed score counts as lowest (quality < 25
suppresses it, any higher quality displays the same composite); and the
only ceiling the pipeline enforces is the rounded raw composite itself —
the displayed score is either null or exactly the rounded raw score. -/
theorem claim1_display_monotone :
    (∀ (wfile : Option (List (String × ℚ))) (raw1 raw2 : Raw) (r1 r2 : PdfScoreData),
      build_pmf_pdf_data wfile raw1 = .ok r1 →
      build_pmf_pdf_data wfile raw2 = .ok r2 →
      build_scores_from_raw raw1 = build_scores_from_raw raw2 →
      r1.data_quality_score < r2.data_quality_score →
      optLe r1.pmf_score r2.pmf_score) ∧
    (∀ (wfile : Option (List (String × ℚ))) (raw : Raw) (r : PdfScoreData),
      build_pmf_pdf_data wfile raw = .ok r →
      r.pmf_score = none ∨ r.pmf_score = some (round1 r.pmf_score_raw)) := by
  constructor
  · intro wfile raw1 raw2 r1 r2 h1 h2 hs hq
    unfold build_pmf_pdf_data at h1 h2
    cases hb1 : build_scores_from_raw raw1 with
    | error e => rw [hb1] at h1; exact absurd h1 (by simp)
    | ok comps1 =>
      cases hb2 : build_scores_from_raw raw2 with
      | error e => rw [hb2] at h2; exact absurd h2 (by simp)
      | ok comps2 =>
        have hc : comps1 = comps2 := by
          rw [hb1, hb2] at hs; exact Except.ok.inj hs
        subst hc
        simp only [hb1] at h1
        simp only [hb2] at h2
        cases ha1 : assess_data_quality raw1 with
        | error e => rw [ha1] at h1; exact absurd h1 (by simp)
        | ok ql1 =>
          cases ha2 : assess_data_quality raw2 with
          | error e => rw [ha2] at h2; exact absurd h2 (by simp)
          | ok ql2 =>
            simp only [ha1] at h1
            simp only [ha2] at h2
            obtain rfl := Except.ok.inj h1
            obtain rfl := Except.ok.inj h2
            simp only at hq
            show optLe (displayedOf ql1.1 _) (displayedOf ql2.1 _)
            unfold displayedOf
            by_cases hlt : ql1.1 < 25
            · rw [if_pos hlt]; trivial
            · rw [if_neg hlt, if_neg (by omega : ¬(ql2.1 < 25))]
              exact le_refl _
  · intro wfile raw r h
    unfold build_pmf_pdf_data at h
    cases hb : build_scores_from_raw raw with
    | error e => rw [hb] at h; exact absurd h (by simp)
    | ok comps =>
      simp only [hb] at h
      cases ha : assess_data_quality raw with
      | error e => rw [ha] at h; exact absurd h (by simp)
      | ok ql =>
        simp only [ha] at h
        obtain rfl := Except.ok.inj h
        show displayedOf ql.1 _ = none ∨ displayedOf ql.1 _ = some (round1 _)
        unfold displayedOf
        by_cases hlt : ql.1 < 25
        · left; rw [if_pos hlt]
        · right; rw [if_neg hlt]

/-- C1 witness: monotonicity applied to the empty input (quality 0,
suppressed score) against an input with the same component scores and
quality 41 (displayed 40.5), and the raw-composite ceiling at the latter. -/
theorem claim1_display_monotone_witness :
    optLe (none : Option ℚ) (some (81/2)) ∧
    (some ((81 : ℚ)/2) = none ∨ some ((81 : ℚ)/2) = some (round1 (81/2))) := by
  constructor
  · exact claim1_display_monotone.1 none rawEmpty rawC1b
      ⟨none, "데이터 부족(판정 불가)", 81/2, "Problem/Solution Fit", 0, "매우 낮음", "invalid"⟩
      ⟨some (81/2), "Problem/Solution Fit", 81/2, "Problem/Solution Fit", 41, "보통", "reference"⟩
      eval_pdf_rawEmpty eval_pdf_rawC1b (by decide) (by decide)
  · exact claim1_display_monotone.2 none rawC1b _ eval_pdf_rawC1b

/-- C3 counterexample: at quality 10 the adjuster returns the fixed score
5.0 with a Pre-PMF stage — not a suppressed (null) score as claimed — and
on a concrete input of quality 41 the pipeline displays 43.5 where the
claimed policy requires min(43.5, 35) = 35: the pipeline does not apply
the adjuster. -/
theorem claim3_counterexample :
    adjust_pmf_score 50 ("Problem/Solution Fit") 10
      = (5, "정보 부족 / 진단 불가 (Pre-PMF)") ∧
    specDisplayPolicy 50 10 = none ∧
    (some (5 : ℚ) ≠ (none : Option ℚ)) ∧
    build_pmf_pdf_data none rawC1 =
      .ok ⟨some (87/2), "Problem/Solution Fit", 87/2, "Problem/Solution Fit",
           41, "보통", "reference"⟩ ∧
    specDisplayPolicy (87/2) 41 = some 35 ∧
    some ((87 : ℚ)/2) ≠ some ((35 : ℚ)) := by
  refine ⟨?_, ?_, by simp, eval_pdf_rawC1, ?_, ?_⟩
  · simp only [adjust_pmf_score]
    norm_num
  · norm_num [specDisplayPolicy]
  · norm_num [specDisplayPolicy, min_def]
  · simp only [ne_eq, Option.some.injEq]
    norm_num

/-- C3 (amended): the adjuster maps clamped quality q < 20 to the fixed
score 5.0 (not null) with the Pre-PMF stage, 20 ≤ q < 40 to min(s, 20),
40 ≤ q < 60 to min(s, 35), and q ≥ 60 to the unmodified score and stage;
the report pipeline does not apply the adjuster — it suppresses the score
entirely below quality 25 and otherwise displays the rounded raw score
unmodified, with mode invalid/reference/normal at the 25/60 cutpoints and a
stage override only in invalid mode. -/
theorem claim3_adjuster_policy :
    (∀ (s : ℚ) (st : String) (q : ℤ),
      (max 0 (min 100 q) < 20 →
        adjust_pmf_score s st q = (5, "정보 부족 / 진단 불가 (Pre-PMF)")) ∧
      (20 ≤ max 0 (min 100 q) → max 0 (min 100 q) < 40 →
        adjust_pmf_score s st q = (min s 20, "정보 부족 / Early Problem Fit")) ∧
      (40 ≤ max 0 (min 100 q) → max 0 (min 100 q) < 60 →
        adjust_pmf_score s st q = (min s 35, "초기 탐색 / Problem Discovery")) ∧
      (60 ≤ max 0 (min 100 q) → adjust_pmf_score s st q = (s, st))) ∧
    (∀ (wfile : Option (List (String × ℚ))) (raw : Raw) (r : PdfScoreData),
      build_pmf_pdf_data wfile raw = .ok r →
        r.pmf_score = (if r.data_quality_score < 25 then none
          else some (round1 r.pmf_score_raw)) ∧
        r.pmf_score_mode = (if r.data_quality_score < 25 then "invalid"
          else if r.data_quality_score < 60 then "reference" else "normal") ∧
        r.validation_stage = (if r.data_quality_score < 25 then "데이터 부족(판정 불가)"
          else r.validation_stage_raw)) := by
  constructor
  · intro s st q
    refine ⟨fun h => ?_, fun h1 h2 => ?_, fun h1 h2 => ?_, fun h => ?_⟩ <;>
      simp only [adjust_pmf_score]
    · rw [if_pos h]
    · rw [if_neg (not_lt.mpr h1), if_pos h2]
    · rw [if_neg (not_lt.mpr (by linarith)), if_neg (not_lt.mpr h1), if_pos h2]
    · rw [if_neg (not_lt.mpr (by linarith)), if_neg (not_lt.mpr (by linarith)),
        if_neg (not_lt.mpr h)]
  · intro wfile raw r h
    unfold build_pmf_pdf_data at h
    cases hb : build_scores_from_raw raw with
    | error e => rw [hb] at h; exact absurd h (by simp)
    | ok comps =>
      simp only [hb] at h
      cases ha : assess_data_quality raw with
      | error e => rw [ha] at h; exact absurd h (by simp)
      | ok ql =>
        simp only [ha] at h
        obtain rfl := Except.ok.inj h
        exact ⟨rfl, rfl, rfl⟩

/-- C3 witness: the adjuster's 35-point cap applied at score 50 and
quality 45, and the pipeline's displayed score on the second mid-quality
input (quality 41, displayed uncapped 40.5). -/
theorem claim3_adjuster_policy_witness :
    adjust_pmf_score 50 ("S") 45 = (min 50 35, "초기 탐색 / Problem Discovery") ∧
    (some ((81 : ℚ)/2) : Option ℚ) = (if (41 : ℤ) < 25 then none else some (round1 (81/2))) := by
  constructor
  · exact (claim3_adjuster_policy.1 50 ("S") 45).2.2.1
      (by norm_num [min_def, max_def]) (by norm_num [min_def, max_def])
  · exact (claim3_adjuster_policy.2 none rawC1b _ eval_pdf_rawC1b).1

/-- C6 witness: the curve applied at -5, 10, 30, 70 and 120. -/
theorem claim6_sean_ellis_curve_witness :
    map_sean_ellis_to_score (-5) = 0 ∧
    map_sean_ellis_to_score 10 = 10 * (6/5) ∧
    map_sean_ellis_to_score 30 = 24 + (30 - 20) * (9/5) ∧
    map_sean_ellis_to_score 70 = min 100 (60 + (70 - 40)) ∧
    map_sean_ellis_to_score 120 = 100 :=
  ⟨claim6_sean_ellis_curve.1 (-5) (by norm_num),
   claim6_sean_ellis_curve.2.1 10 (by norm_num) (by norm_num),
   claim6_sean_ellis_curve.2.2.1 30 (by norm_num) (by norm_num),
   claim6_sean_ellis_curve.2.2.2.2.1 70 (by norm_num) (by norm_num),
   claim6_sean_ellis_curve.2.2.2.2.2.1 120 (by norm_num)⟩

end PmfStudio
